import Mathlib

/-!
Shallow embedding of the filtering/derivation pipeline of `src/Diabetes.py`
(a Streamlit dashboard over the sklearn diabetes dataset).

Modelling conventions:
* A pandas DataFrame row becomes a `Record` with the ten standardized feature
  columns and the `target` column; the frame itself is a `List Record`
  (the list order is the frame's row order).
* Python floats are modelled as rationals (`Rat`): every operation the
  claims touch (comparisons, sign test, sum/length mean) is exact on the
  values involved, so no rounding behaviour is lost.
* A pandas dict lookup that raises `KeyError` (a `LookupError`) on a missing
  key is modelled with `Option`: `none` is the raised error.
* The pandas mean of an empty column is `NaN`; `NaN` is modelled as the
  `none` of an `Option` result (the "undefined sentinel").
-/

/-- One row of the DataFrame `df` built at `src/Diabetes.py:15-16`:
the ten feature columns of `diabetes.feature_names` plus the `target`
column appended at line 16. -/
structure Record where
  age : Rat
  sex : Rat
  bmi : Rat
  bp : Rat
  s1 : Rat
  s2 : Rat
  s3 : Rat
  s4 : Rat
  s5 : Rat
  s6 : Rat
  target : Rat
deriving DecidableEq

/-- `src/Diabetes.py:19`: the derived categorical column
`df["sex"].apply(lambda v: "male" if v > 0 else "female")`, per row. -/
def sex_cat (r : Record) : String :=
  if r.sex > 0 then "male" else "female"

/-- `src/Diabetes.py:22-33`: the `feature_name_map` dict, as an
association list in the dict's insertion order. -/
def feature_name_map : List (String × String) :=
  [("age", "Age"),
   ("sex", "Sex"),
   ("bmi", "Body Mass Index (BMI)"),
   ("bp", "Blood Pressure"),
   ("s1", "Total Serum Cholesterol (TC)"),
   ("s2", "Low-Density Lipoprotein (LDL)"),
   ("s3", "High-Density Lipoprotein (HDL)"),
   ("s4", "Triglycerides (TG)"),
   ("s5", "Serum Glucose"),
   ("s6", "Serum TSH")]

/-- `src/Diabetes.py:35`: `readable_to_original = {v: k for k, v in
feature_name_map.items()}`, the inverted dict. -/
def readable_to_original : List (String × String) :=
  feature_name_map.map (fun p => (p.2, p.1))

/-- `src/Diabetes.py:36`: `readable_features = list(feature_name_map.values())`. -/
def readable_features : List String :=
  feature_name_map.map Prod.snd

/-- Dict subscript `feature_name_map[id]` (raises `KeyError` on a missing
key, modelled as `none`). -/
def toDisplay (id : String) : Option String :=
  feature_name_map.lookup id

/-- Dict subscript `readable_to_original[name]` as used at
`src/Diabetes.py:85-86` (raises `KeyError` on a missing key, modelled as
`none`). -/
def toIdentifier (name : String) : Option String :=
  readable_to_original.lookup name

/-- Python `int()` on a numeric value: truncation toward zero. On a
rational in lowest terms with positive denominator this is the truncated
division of the numerator by the denominator. -/
def pyInt (q : Rat) : Int :=
  q.num.tdiv q.den

/-- The `target` column of a frame. -/
def targetCol (df : List Record) : List Rat :=
  df.map Record.target

/-- `src/Diabetes.py:89`: `min_target = int(df["target"].min())`. -/
def min_target (df : List Record) : Option Int :=
  (targetCol df).min?.map pyInt

/-- `src/Diabetes.py:90`: `max_target = int(df["target"].max())`. -/
def max_target (df : List Record) : Option Int :=
  (targetCol df).max?.map pyInt

/-- `src/Diabetes.py:105-108`: the boolean-mask row selection
`df[(df["target"] >= lo) & (df["target"] <= hi)]` (the `.copy()` only
detaches storage and leaves the rows unchanged). -/
def filtered (df : List Record) (lo hi : Rat) : List Record :=
  df.filter (fun r => lo ≤ r.target ∧ r.target ≤ hi)

/-- Pandas `Series.mean`: sum divided by count, `NaN` (here `none`) on an
empty column. Used at `src/Diabetes.py:119-120`. -/
def seriesMean (xs : List Rat) : Option Rat :=
  if xs.isEmpty then none else some (xs.sum / (xs.length : Rat))

/-- `src/Diabetes.py:118`: the `Filtered Rows` metric `len(filtered)`. -/
def filteredRows (df : List Record) : Nat :=
  df.length

/-- `src/Diabetes.py:119`: the `Mean Target` metric
`filtered['target'].mean()`. -/
def meanTarget (df : List Record) : Option Rat :=
  seriesMean (df.map Record.target)

/-- `src/Diabetes.py:120`: the `Mean BMI` metric `filtered['bmi'].mean()`. -/
def meanBmi (df : List Record) : Option Rat :=
  seriesMean (df.map Record.bmi)

/-- `src/Diabetes.py:170`: `pair_feats = ["bmi", "bp", "target"]`. -/
def pair_feats : List String :=
  ["bmi", "bp", "target"]

/-- The columns the pairwise-matrix view is built from, as a function of
the two user axis selections (the readable names picked in the sidebar at
`src/Diabetes.py:73-83`). In the source the selections do not enter this
computation: `small_df = filtered[pair_feats]` at line 171 always uses the
constant `pair_feats`. -/
def pairMatrixCols (xFeatureReadable yFeatureReadable : String) : List String :=
  pair_feats

/-- `src/Diabetes.py:171`: the three projected columns of one row of
`small_df = filtered[pair_feats]`. -/
def smallDfRow (r : Record) : Rat × Rat × Rat :=
  (r.bmi, r.bp, r.target)

/-- `src/Diabetes.py:171`: `small_df` as the per-row projection of the
filtered frame onto `pair_feats`. -/
def small_df (df : List Record) : List (Rat × Rat × Rat) :=
  df.map smallDfRow

/-- Pandas `Series.value_counts` as used at `src/Diabetes.py:188`:
the distinct values with their frequencies, sorted by descending count
(stable). Empty input gives an empty series. -/
def valueCounts (xs : List String) : List (String × Nat) :=
  ((xs.dedup).map (fun v => (v, xs.count v))).insertionSort
    (fun a b => b.2 ≤ a.2)

/-- `src/Diabetes.py:188`: the `Counts by Gender` table
`filtered["sex_cat"].value_counts()`. -/
def sexCatCounts (df : List Record) : List (String × Nat) :=
  valueCounts (df.map sex_cat)

/-- The rational-valued part of one column's row of
`filtered.describe()` (`src/Diabetes.py:185`): count, mean, min, max.
Mean/min/max of an empty column are pandas `NaN`, modelled as `none`;
the irrational-valued entries (std, quartiles) are computed inside the
library call and are outside this embedding. -/
structure DescribeCol where
  count : Nat
  mean : Option Rat
  min : Option Rat
  max : Option Rat
deriving DecidableEq

/-- `describe` data for one numeric column, from its list of values. -/
def describeCol (xs : List Rat) : DescribeCol :=
  ⟨xs.length, seriesMean xs, xs.min?, xs.max?⟩

/-- `src/Diabetes.py:185`: the `describe()` summary of the `target`
column of the filtered frame. -/
def describeTarget (df : List Record) : DescribeCol :=
  describeCol (df.map Record.target)

/-- A record with every feature zero except the sex feature, and a given
target: enough to instantiate the spec scenarios. -/
def mkRecord (sex target : Rat) : Record :=
  ⟨0, sex, 0, 0, 0, 0, 0, 0, 0, 0, target⟩

/-- The four-record scenario dataset of the spec: target values
25, 50, 75, 100 with sex feature signs +, -, +, -. -/
def scenarioTable : List Record :=
  [mkRecord 1 25, mkRecord (-1) 50, mkRecord 1 75, mkRecord (-1) 100]

/-- The rational one half, given directly in lowest terms. -/
def half : Rat := ⟨1, 2, by decide, by decide⟩

/-- A one-record dataset whose single target value 1/2 is fractional:
`int()` truncation of the column min/max produces bounds that exclude it. -/
def fractionalTable : List Record :=
  [mkRecord 0 half]

/-- Association-list lookup misses every key that is not among the list's
keys (the embedding of a dict raising `KeyError`). -/
theorem lookup_eq_none_of_not_mem_keys (l : List (String × String)) (a : String)
    (h : a ∉ l.map Prod.fst) : l.lookup a = none := by
  induction l with
  | nil => rfl
  | cons p t ih =>
    simp only [List.map_cons, List.mem_cons, not_or] at h
    have hne : (a == p.1) = false := beq_eq_false_iff_ne.mpr h.1
    simp [List.lookup, hne, ih h.2]

/-- C1: for every pair of bounds lo ≤ hi, the range filter applied to the
base table returns exactly the records whose target lies in the inclusive
interval [lo, hi] (per-record multiplicities preserved), in the same
relative order as in the base table (a sublist). -/
theorem filtered_exact (df : List Record) (lo hi : Rat) (h : lo ≤ hi) :
    (filtered df lo hi).Sublist df ∧
    ∀ r : Record, (filtered df lo hi).count r =
      if lo ≤ r.target ∧ r.target ≤ hi then df.count r else 0 := by
  refine ⟨List.filter_sublist df, fun r => ?_⟩
  by_cases hc : lo ≤ r.target ∧ r.target ≤ hi
  · rw [if_pos hc]
    exact List.count_filter (by simpa using hc)
  · rw [if_neg hc]
    refine List.count_eq_zero.mpr fun hmem => ?_
    exact hc (by simpa using (List.mem_filter.mp hmem).2)

theorem filtered_exact_witness :
    (filtered scenarioTable 50 100).count (mkRecord 1 75) =
      if (50 : Rat) ≤ (mkRecord 1 75).target ∧ (mkRecord 1 75).target ≤ 100 then
        scenarioTable.count (mkRecord 1 75) else 0 :=
  (filtered_exact scenarioTable 50 100 (by norm_num)).2 (mkRecord 1 75)

/-- C2: the derived category column is "male" exactly when the record's
sex feature is strictly positive and "female" exactly otherwise; the
derivation is total, assigning exactly one category to every record. -/
theorem sex_cat_spec (r : Record) :
    (sex_cat r = "male" ↔ 0 < r.sex) ∧ (sex_cat r = "female" ↔ ¬0 < r.sex) := by
  unfold sex_cat
  by_cases h : r.sex > 0 <;> simp [h]

/-- C3: the feature catalog is a bijection over exactly ten fixed entries:
translating each of the ten identifiers to its display name and back is
the identity, and symmetrically for the ten display names; in particular
"bmi" maps to "Body Mass Index (BMI)" and back. -/
theorem feature_catalog_bijection :
    feature_name_map.length = 10 ∧
    (feature_name_map.map Prod.fst).Nodup ∧
    readable_features.Nodup ∧
    ((feature_name_map.map Prod.fst).all
      (fun id => (toDisplay id).bind toIdentifier = some id)) = true ∧
    (readable_features.all
      (fun nm => (toIdentifier nm).bind toDisplay = some nm)) = true ∧
    toDisplay "bmi" = some "Body Mass Index (BMI)" ∧
    toIdentifier "Body Mass Index (BMI)" = some "bmi" := by
  decide

/-- C4 counterexample: on the one-record dataset with target 1/2, the
computed global bounds are int(1/2) = 0 on both ends, and filtering with
them drops the record instead of returning the table unchanged — so the
boundary-identity claim fails for this dataset with a non-empty target
column. -/
theorem global_bounds_identity_cex :
    min_target fractionalTable = some 0 ∧
    max_target fractionalTable = some 0 ∧
    filtered fractionalTable ((0 : Int) : Rat) ((0 : Int) : Rat) ≠ fractionalTable := by
  decide

/-- C4 amended: applying the range filter with the truncated global
bounds int(min), int(max) returns the base table unchanged for every
dataset with a non-empty target column whose truncated bounds still
enclose every target — i.e. when int(min) ≤ min and max ≤ int(max) as
reals (in particular whenever all targets are integers, as in the
bundled dataset). -/
theorem global_bounds_identity (df : List Record) (m M : Rat)
    (hm : (targetCol df).min? = some m) (hM : (targetCol df).max? = some M)
    (h1 : ((pyInt m : Int) : Rat) ≤ m) (h2 : M ≤ ((pyInt M : Int) : Rat)) :
    filtered df ((pyInt m : Int) : Rat) ((pyInt M : Int) : Rat) = df := by
  apply List.filter_eq_self.mpr
  intro r hr
  have hmem : r.target ∈ targetCol df := List.mem_map_of_mem Record.target hr
  have hmin : m ≤ r.target :=
    (List.le_min?_iff (fun a b c => le_min_iff) hm).mp (le_refl m) _ hmem
  have hmax : r.target ≤ M :=
    (List.max?_le_iff (fun a b c => max_le_iff) hM).mp (le_refl M) _ hmem
  simpa using ⟨le_trans h1 hmin, le_trans hmax h2⟩

theorem global_bounds_identity_witness :
    filtered scenarioTable ((pyInt 25 : Int) : Rat) ((pyInt 100 : Int) : Rat) =
      scenarioTable :=
  global_bounds_identity scenarioTable 25 100 (by decide) (by decide)
    (by decide) (by decide)

/-- C5 counterexample: choosing Age and Serum Glucose as the axis
features (valid selections translating to identifiers "age" and "s5"),
the pairwise matrix is still built from the constant columns
bmi, bp, target — not from the two chosen structural features. -/
theorem pair_matrix_cols_cex :
    toIdentifier "Age" = some "age" ∧
    toIdentifier "Serum Glucose" = some "s5" ∧
    pairMatrixCols "Age" "Serum Glucose" ≠ ["age", "s5", "target"] := by
  decide

/-- C5 amended: for every pair of user axis feature selections, the
pairwise matrix view is built from exactly three fixed columns — bmi, bp
and the target column — independent of the chosen features; each row of
the view is the projection of a filtered-view row onto those three
columns. -/
theorem pair_matrix_cols_fixed (xSel ySel : String) (df : List Record)
    (lo hi : Rat) :
    pairMatrixCols xSel ySel = ["bmi", "bp", "target"] ∧
    (pairMatrixCols xSel ySel).length = 3 ∧
    small_df (filtered df lo hi) =
      (filtered df lo hi).map (fun r => (r.bmi, r.bp, r.target)) :=
  ⟨rfl, rfl, rfl⟩

/-- C6: when the filtered view is empty, every summary operation is still
defined: the row count is 0, the two mean metrics and the describe
mean/min/max are the undefined sentinel (pandas NaN, modelled `none`),
and the category frequency table is empty. -/
theorem empty_view_summaries (df : List Record) (lo hi : Rat)
    (h : filtered df lo hi = []) :
    filteredRows (filtered df lo hi) = 0 ∧
    meanTarget (filtered df lo hi) = none ∧
    meanBmi (filtered df lo hi) = none ∧
    sexCatCounts (filtered df lo hi) = [] ∧
    describeTarget (filtered df lo hi) = ⟨0, none, none, none⟩ := by
  rw [h]
  decide

theorem empty_view_summaries_witness :
    filteredRows (filtered scenarioTable 200 300) = 0 ∧
    meanTarget (filtered scenarioTable 200 300) = none ∧
    meanBmi (filtered scenarioTable 200 300) = none ∧
    sexCatCounts (filtered scenarioTable 200 300) = [] ∧
    describeTarget (filtered scenarioTable 200 300) = ⟨0, none, none, none⟩ :=
  empty_view_summaries scenarioTable 200 300 (by decide)

/-- C7: for every key that is not one of the ten internal identifiers,
toDisplay fails with the lookup error (modelled `none`); for every string
that is not one of the ten display names, toIdentifier fails likewise. -/
theorem unknown_key_lookup_fails (s : String) :
    (s ∉ feature_name_map.map Prod.fst → toDisplay s = none) ∧
    (s ∉ readable_features → toIdentifier s = none) := by
  constructor
  · exact fun h => lookup_eq_none_of_not_mem_keys feature_name_map s h
  · intro h
    apply lookup_eq_none_of_not_mem_keys readable_to_original s
    have hkeys : readable_to_original.map Prod.fst = readable_features := by decide
    rw [hkeys]
    exact h

theorem unknown_key_lookup_fails_witness :
    toDisplay "foo" = none ∧ toIdentifier "foo" = none :=
  ⟨(unknown_key_lookup_fails "foo").1 (by decide),
   (unknown_key_lookup_fails "foo").2 (by decide)⟩

/-- C8: the range filter is idempotent: for every lo ≤ hi, applying the
filter with bounds (lo, hi) to its own output returns that output
unchanged (hence the same set of records as applying it once). -/
theorem filtered_idempotent (df : List Record) (lo hi : Rat) (h : lo ≤ hi) :
    filtered (filtered df lo hi) lo hi = filtered df lo hi := by
  apply List.filter_eq_self.mpr
  intro r hr
  exact (List.mem_filter.mp hr).2

theorem filtered_idempotent_witness :
    filtered (filtered scenarioTable 50 100) 50 100 =
      filtered scenarioTable 50 100 :=
  filtered_idempotent scenarioTable 50 100 (by norm_num)

/-- C9: on the four-record dataset with targets 25, 50, 75, 100 and sex
signs +, -, +, -, filtering with bounds (50, 100) returns the records
with targets 50, 75, 100, whose derived categories are female, male,
female respectively, with row count 3 and mean target 75. -/
theorem scenario_filter :
    (filtered scenarioTable 50 100).map Record.target = [50, 75, 100] ∧
    (filtered scenarioTable 50 100).map sex_cat = ["female", "male", "female"] ∧
    filteredRows (filtered scenarioTable 50 100) = 3 ∧
    meanTarget (filtered scenarioTable 50 100) = some 75 := by
  refine ⟨by decide, by decide, by decide, ?_⟩
  have h : (filtered scenarioTable 50 100).map Record.target = [50, 75, 100] := by
    decide
  rw [meanTarget, h]
  norm_num [seriesMean]

/-- C10: for every pair of bounds with lo > hi, the range filter returns
the empty record list (the inverted range matches no record; nothing is
clamped or swapped, and in the embedding the operation is total, so no
error is signalled). -/
theorem inverted_range_empty (df : List Record) (lo hi : Rat) (h : hi < lo) :
    filtered df lo hi = [] := by
  apply List.filter_eq_nil_iff.mpr
  intro r hr
  simp only [decide_eq_true_eq, not_and]
  intro h1 h2
  exact absurd (le_trans h1 h2) (not_le.mpr h)

theorem inverted_range_empty_witness :
    filtered scenarioTable 100 50 = [] :=
  inverted_range_empty scenarioTable 100 50 (by norm_num)
